import Mathlib

/-!
Verification of the error-extraction core of `app.py` (`process_excel_data`).

The function reads an Excel workbook through pandas, checks that the five
required subject sheets are present, derives the student roster from the
canonical subject sheet (國文), and for every (student, subject) pair joins
the student's answer row against the three header rows to produce the list
of missed-question records.

Modelling conventions:
* a pandas cell is either NaN (`Cell.na`, what `pd.isna` detects) or a
  present value `Cell.val s`, where `s` is the Python `str()` form of the
  value; `str.strip()` is modelled by `pyStrip`, which removes leading and
  trailing whitespace characters;
* a sheet read with `header=None` is a rectangular DataFrame: short rows are
  padded with NaN up to the sheet's column count, so positional access past
  the end of a raw row yields `Cell.na` (`padTo` and `cellAt` below);
* pandas elementwise equality (`==`) never matches NaN, modelled by
  `Cell.pdEq`;
* Python exceptions in the per-(student,subject) `try` block are modelled by
  `Except.error ()`; the analysis in `subjectStep` shows the block raises
  exactly when the sheet has fewer than 3 rows (the `df.iloc[0..2, 2:]`
  header reads) or fewer than 2 columns (the `.columns` relabelling of
  `df.iloc[5:, 1:]`, whose label list has length `ncols - 1`);
* Python dicts built by insertion are modelled as association lists in
  insertion order.
-/

set_option autoImplicit false

namespace AutoScore

/-- A pandas cell value: `na` is NaN/None (missing), `val s` is a present
value whose Python `str()` form is `s`. -/
inductive Cell where
  | na : Cell
  | val : String → Cell
  deriving DecidableEq

/-- Python `pd.notna`: true exactly on present values. -/
def Cell.notna : Cell → Bool
  | Cell.na => false
  | Cell.val _ => true

/-- Python `str()` of a cell value; `str(float('nan'))` is the string
"nan". -/
def Cell.pyStr : Cell → String
  | Cell.na => "nan"
  | Cell.val s => s

/-- Pandas elementwise equality: NaN compares unequal to everything,
including NaN itself. -/
def Cell.pdEq : Cell → Cell → Bool
  | Cell.val a, Cell.val b => a = b
  | _, _ => false

/-- A raw sheet: a list of rows of cells, as stored in the workbook.  pandas
presents it as a rectangular DataFrame padded with NaN to the widest row. -/
abbrev Grid := List (List Cell)

/-- Number of columns of the DataFrame pandas builds from the raw rows: the
widest row's length. -/
def gridCols (g : Grid) : Nat :=
  g.foldr (fun r n => max r.length n) 0

/-- Pad a raw row with NaN on the right, as pandas does when the sheet is
rectangularised. -/
def padTo (n : Nat) (r : List Cell) : List Cell :=
  r ++ List.replicate (n - r.length) Cell.na

/-- Cell of a row at positional index `c` in the rectangularised DataFrame:
NaN past the end of the raw row. -/
def cellAt (r : List Cell) (c : Nat) : Cell :=
  r.getD c Cell.na

/-- Cells of a row from positional column `c` to the DataFrame's last
column, i.e. the Series `row.iloc[c:]` of a sheet with `n` columns. -/
def sliceFrom (n c : Nat) (r : List Cell) : List Cell :=
  (padTo n r).drop c

/-- Python `str.strip()`: remove leading and trailing whitespace
characters. -/
def pyStrip (s : String) : String :=
  ⟨((s.data.dropWhile Char.isWhitespace).reverse.dropWhile Char.isWhitespace).reverse⟩

/-- The missed-question predicate of app.py line 148:
`ans_str != "-" and pd.notna(ans) and ans_str != ""` where
`ans_str = str(ans).strip()`. -/
def isMissed (ans : Cell) : Bool :=
  pyStrip ans.pyStr ≠ "-" && ans.notna && pyStrip ans.pyStr ≠ ""

/-- The predicate of the spec, in the spec's own order: the marker is
present, its trimmed string form is non-empty, and its trimmed string form
is not the sentinel "-". -/
def specMissed (ans : Cell) : Bool :=
  ans.notna && pyStrip ans.pyStr ≠ "" && pyStrip ans.pyStr ≠ "-"

/-- One missed-question record (app.py lines 149-153): question number and
knowledge point are the raw cell values, the category label is a string. -/
structure ErrorRecord where
  qn : Cell
  cat : String
  kp : Cell
  deriving DecidableEq

/-- Category label of a record (app.py line 151):
`str(cat).strip() if pd.notna(cat) else "其他"`. -/
def catLabel (cat : Cell) : String :=
  if cat.notna then pyStrip cat.pyStr else "其他"

/-- Record built for one qualifying answer position (app.py lines 149-153):
question number and knowledge point copied verbatim, category label
trimmed with the NaN fallback. -/
def mkErrorRecord (qn cat kp : Cell) : ErrorRecord :=
  { qn := qn, cat := catLabel cat, kp := kp }

/-- The zip/filter loop of app.py lines 145-153:
`for ans, cat, kp, qn in zip(answers, categories, k_points, q_nums)`,
appending a record when `isMissed ans`.  Python's `zip` stops at the
shortest input. -/
def extractErrors : List Cell → List Cell → List Cell → List Cell → List ErrorRecord
  | a :: as, c :: cs, k :: ks, q :: qs =>
    if isMissed a then
      mkErrorRecord q c k :: extractErrors as cs ks qs
    else
      extractErrors as cs ks qs
  | _, _, _, _ => []

/-- An uploaded workbook: the named sheets, in workbook order. -/
structure Workbook where
  sheets : List (String × Grid)

/-- Names of the workbook's sheets (`xls.sheet_names`). -/
def Workbook.sheetNames (wb : Workbook) : List String :=
  wb.sheets.map Prod.fst

/-- The grid stored under a sheet name (`data_map[sheet]`); only evaluated
on names the presence check has already established. -/
def Workbook.grid (wb : Workbook) (name : String) : Grid :=
  match wb.sheets.find? (fun p => p.1 == name) with
  | some p => p.2
  | none => []

/-- The five required subject sheets of app.py line 108. -/
def requiredSheets : List String := ["國文", "英文", "數學", "社會", "自然"]

/-- Required sheets absent from the workbook (app.py line 109):
`[sheet for sheet in required_sheets if sheet not in xls.sheet_names]`. -/
def missingSheetsOf (wb : Workbook) : List String :=
  requiredSheets.filter (fun s => !(wb.sheetNames.contains s))

/-- First-occurrence deduplication, as pandas `Series.unique` performs on
the roster column. -/
def uniqueFirst (l : List Cell) : List Cell :=
  l.foldl (fun acc x => if x ∈ acc then acc else acc ++ [x]) []

/-- The student roster derived from the canonical subject sheet (app.py
line 120): `first_df.iloc[5:, 1].dropna().unique().tolist()` — column 1 of
the body rows, NaN entries dropped, first occurrences kept. -/
def studentList (df : Grid) : List Cell :=
  uniqueFirst (((df.drop 5).map (fun r => cellAt r 1)).filter Cell.notna)

/-- The errors a run of `process_excel_data` can report before any
extraction: a required sheet missing, or the canonical roster sheet
unreadable. -/
inductive ExcelError where
  | badFile : ExcelError
  | missingSheets : List String → ExcelError
  | rosterUnreadable : ExcelError
  deriving DecidableEq

instance {ε α : Type} [DecidableEq ε] [DecidableEq α] : DecidableEq (Except ε α) := by
  intro a b
  cases a <;> cases b
  case error.error e e' =>
    exact if h : e = e' then isTrue (by rw [h]) else isFalse (by intro hc; cases hc; exact h rfl)
  case error.ok e v => exact isFalse (by intro hc; cases hc)
  case ok.error v e => exact isFalse (by intro hc; cases hc)
  case ok.ok v v' =>
    exact if h : v = v' then isTrue (by rw [h]) else isFalse (by intro hc; cases hc; exact h rfl)

/-- The body of the per-(student, subject) `try` block (app.py lines
130-154).  `Except.error ()` models a raised Python exception: the header
reads `df.iloc[0..2, 2:]` raise IndexError when the sheet has fewer than 3
rows, and the `.columns` relabelling raises ValueError when it has fewer
than 2 columns (the label list `["Name"] + [...]` then has the wrong
length).  `Except.ok none` models the `continue` taken when
`target_row.empty`; `Except.ok (some errs)` is a completed extraction. -/
def subjectStep (df : Grid) (student : Cell) : Except Unit (Option (List ErrorRecord)) :=
  let nrows := df.length
  let ncols := gridCols df
  if nrows < 3 ∨ ncols < 2 then
    Except.error ()
  else
    let q_nums := sliceFrom ncols 2 (df.getD 0 [])
    let categories := sliceFrom ncols 2 (df.getD 1 [])
    let k_points := sliceFrom ncols 2 (df.getD 2 [])
    match (df.drop 5).find? (fun r => Cell.pdEq (cellAt r 1) student) with
    | none => Except.ok none
    | some r => Except.ok (some (extractErrors (sliceFrom ncols 2 r) categories k_points q_nums))

/-- The per-student loop over subjects (app.py lines 128-156), building the
`student_errors` dict in insertion order; a raised exception is caught and
the subject skipped, a `continue` likewise leaves the subject absent. -/
def collectErrors (wb : Workbook) (student : Cell) : List String → List (String × List ErrorRecord)
  | [] => []
  | subject :: rest =>
    match subjectStep (wb.grid subject) student with
    | Except.ok (some errs) => (subject, errs) :: collectErrors wb student rest
    | _ => collectErrors wb student rest

/-- One student's subject-to-records mapping (`student_errors`). -/
def studentErrors (wb : Workbook) (student : Cell) : List (String × List ErrorRecord) :=
  collectErrors wb student requiredSheets

/-- The class index handed downstream: student name to per-subject missed
questions, in roster order (`all_students_data`). -/
abbrev ClassIndex := List (Cell × List (String × List ErrorRecord))

/-- The whole of `process_excel_data` (app.py lines 101-160) after the file
has been parsed: the missing-sheet check, the roster read (which raises —
and is reported as unreadable — when the canonical sheet has fewer than 2
columns, since `iloc[5:, 1]` indexes column 1), then per-student
extraction. -/
def process_excel_data (wb : Workbook) : Except ExcelError ClassIndex :=
  if missingSheetsOf wb ≠ [] then
    Except.error (ExcelError.missingSheets (missingSheetsOf wb))
  else if gridCols (wb.grid "國文") < 2 then
    Except.error ExcelError.rosterUnreadable
  else
    Except.ok ((studentList (wb.grid "國文")).map (fun s => (s, studentErrors wb s)))

/-- What one student's mapping records for one subject: the extracted list
when the per-pair step completed, nothing when it raised or hit an absent
row. -/
def stepResult (wb : Workbook) (student : Cell) (subject : String) : Option (List ErrorRecord) :=
  match subjectStep (wb.grid subject) student with
  | Except.ok (some errs) => some errs
  | _ => none

/-! Concrete sheets and workbooks used to evaluate the development on
closed inputs. -/

/-- A well-formed subject sheet: three header rows, two spacer rows, a body
row for Alice and a short body row for Bob. -/
def demoGrid : Grid :=
  [[Cell.na, Cell.na, Cell.val "1", Cell.val "2"],
   [Cell.na, Cell.na, Cell.val "文言文", Cell.na],
   [Cell.na, Cell.na, Cell.val "古文", Cell.val "詩詞"],
   [], [],
   [Cell.na, Cell.val "Alice", Cell.val "-", Cell.val "甲"],
   [Cell.na, Cell.val "Bob"]]

/-- A workbook with all five required sheets. -/
def demoWb : Workbook :=
  { sheets := [("國文", demoGrid), ("英文", demoGrid), ("數學", demoGrid),
               ("社會", demoGrid), ("自然", demoGrid)] }

/-- A canonical sheet whose single body row carries the name cell " ":
present but blank. -/
def blankNameGrid : Grid :=
  [[], [], [], [], [], [Cell.na, Cell.val " "]]

/-- A workbook carrying every required sheet except 自然. -/
def missingWb : Workbook :=
  { sheets := [("國文", demoGrid), ("英文", demoGrid), ("數學", demoGrid), ("社會", demoGrid)] }

/-- A workbook whose 社會 sheet is a 1-row, 1-column grid: reading its
header rows raises inside the per-(student, subject) block. -/
def errWb : Workbook :=
  { sheets := [("國文", demoGrid), ("英文", demoGrid), ("數學", demoGrid),
               ("社會", [[Cell.val "x"]]), ("自然", demoGrid)] }

/-- A well-shaped sheet whose body band contains Bob but not Alice. -/
def noAliceGrid : Grid :=
  [[], [], [], [], [], [Cell.na, Cell.val "Bob", Cell.val "甲"]]

/-- A workbook in which Alice appears in every sheet except 自然. -/
def absentWb : Workbook :=
  { sheets := [("國文", demoGrid), ("英文", demoGrid), ("數學", demoGrid),
               ("社會", demoGrid), ("自然", noAliceGrid)] }

/-- A sheet with five rows of three columns: below the spec's six-row
minimum shape, yet wide and tall enough for every positional read in the
code. -/
def fiveRowGrid : Grid :=
  [[Cell.val "a", Cell.val "b", Cell.val "c"],
   [Cell.val "a", Cell.val "b", Cell.val "c"],
   [Cell.val "a", Cell.val "b", Cell.val "c"],
   [Cell.val "a", Cell.val "b", Cell.val "c"],
   [Cell.val "a", Cell.val "b", Cell.val "c"]]

/-- A sheet whose body band holds two rows with the same name. -/
def dupGrid : Grid :=
  [[Cell.na, Cell.na, Cell.val "1"],
   [Cell.na, Cell.na, Cell.val "代數"],
   [Cell.na, Cell.na, Cell.val "畢氏定理"],
   [], [],
   [Cell.na, Cell.val "Alice", Cell.val "甲"],
   [Cell.na, Cell.val "Alice", Cell.val "乙"]]

/-- The class index `process_excel_data` produces for `errWb`. -/
def errIndex : ClassIndex :=
  (studentList (errWb.grid "國文")).map (fun s => (s, studentErrors errWb s))

end AutoScore

namespace AutoScore

example : isMissed (Cell.val "-") = false := by decide
example : isMissed (Cell.val " - ") = false := by decide
example : isMissed (Cell.val "") = false := by decide
example : isMissed Cell.na = false := by decide
example : isMissed (Cell.val "甲") = true := by decide
example : extractErrors [Cell.val "甲"] [Cell.val " "] [Cell.na] [Cell.na]
    = [{ qn := Cell.na, cat := "", kp := Cell.na }] := by decide

example : studentList demoGrid = [Cell.val "Alice", Cell.val "Bob"] := by decide

example : subjectStep demoGrid (Cell.val "Alice")
    = Except.ok (some [{ qn := Cell.val "2", cat := "其他", kp := Cell.val "詩詞" }]) := by decide

example : subjectStep demoGrid (Cell.val "Bob") = Except.ok (some []) := by decide

example : process_excel_data demoWb
    = Except.ok [(Cell.val "Alice", requiredSheets.map (fun s =>
        (s, [{ qn := Cell.val "2", cat := "其他", kp := Cell.val "詩詞" }]))),
      (Cell.val "Bob", requiredSheets.map (fun s => (s, [])))] := by decide

/-! Helper lemmas about the extraction loop. -/

theorem extractErrors_nil_left (cs ks qs : List Cell) :
    extractErrors [] cs ks qs = [] := by
  cases cs <;> cases ks <;> cases qs <;> rfl

theorem extractErrors_cons (a c k q : Cell) (as cs ks qs : List Cell) :
    extractErrors (a :: as) (c :: cs) (k :: ks) (q :: qs)
      = if isMissed a then mkErrorRecord q c k :: extractErrors as cs ks qs
        else extractErrors as cs ks qs := rfl

theorem isMissed_eq_specMissed (ans : Cell) : isMissed ans = specMissed ans := by
  cases ans with
  | na => rfl
  | val s =>
    simp only [isMissed, specMissed, Cell.pyStr, Cell.notna, Bool.true_and, Bool.and_true]
    exact Bool.and_comm _ _

theorem extractErrors_length_le (as cs ks qs : List Cell) :
    (extractErrors as cs ks qs).length
      ≤ min (min as.length cs.length) (min ks.length qs.length) := by
  induction as generalizing cs ks qs with
  | nil => simp [extractErrors_nil_left]
  | cons a as ih =>
    cases cs with
    | nil => simp [extractErrors]
    | cons c cs =>
      cases ks with
      | nil => simp [extractErrors]
      | cons k ks =>
        cases qs with
        | nil => simp [extractErrors]
        | cons q qs =>
          rw [extractErrors_cons]
          have h := ih cs ks qs
          by_cases hm : isMissed a = true
          · simp only [hm, if_true, List.length_cons, List.length]
            omega
          · simp only [Bool.not_eq_true] at hm
            simp only [hm, Bool.false_eq_true, if_false, List.length_cons]
            omega

theorem extractErrors_take (as cs ks qs : List Cell) :
    extractErrors as cs ks qs
      = extractErrors
          (as.take (min (min as.length cs.length) (min ks.length qs.length)))
          (cs.take (min (min as.length cs.length) (min ks.length qs.length)))
          (ks.take (min (min as.length cs.length) (min ks.length qs.length)))
          (qs.take (min (min as.length cs.length) (min ks.length qs.length))) := by
  induction as generalizing cs ks qs with
  | nil => simp [extractErrors_nil_left]
  | cons a as ih =>
    cases cs with
    | nil => simp [extractErrors, extractErrors_nil_left]
    | cons c cs =>
      cases ks with
      | nil =>
        simp only [List.length_cons, List.length_nil, Nat.min_zero, Nat.zero_min,
          List.take_zero]
        rfl
      | cons k ks =>
        cases qs with
        | nil =>
          simp only [List.length_cons, List.length_nil, Nat.min_zero, List.take_zero]
          rfl
        | cons q qs =>
          simp only [List.length_cons, Nat.succ_min_succ, List.take_succ_cons,
            extractErrors_cons]
          rw [← ih cs ks qs]

/-- C7: for every (student, subject) pair where a row is found, the
zip/filter step of app.py line 146 pairs the answer sequence with the three
header sequences positionally up to the shortest length, silently
truncating the longer sequences (replacing any sequence by its prefix of
the shortest length changes nothing), and the resulting record list has
length at most the shortest sequence length. -/
theorem zip_truncates_to_shortest (as cs ks qs : List Cell) :
    extractErrors as cs ks qs
      = extractErrors
          (as.take (min (min as.length cs.length) (min ks.length qs.length)))
          (cs.take (min (min as.length cs.length) (min ks.length qs.length)))
          (ks.take (min (min as.length cs.length) (min ks.length qs.length)))
          (qs.take (min (min as.length cs.length) (min ks.length qs.length)))
    ∧ (extractErrors as cs ks qs).length
        ≤ min (min as.length cs.length) (min ks.length qs.length) :=
  ⟨extractErrors_take as cs ks qs, extractErrors_length_le as cs ks qs⟩

/-- C1: a missed-question record is emitted for an answer position exactly
when the marker is present, its trimmed string form is non-empty, and its
trimmed string form is not "-"; in particular "-", blank, missing and
" - " are not errors and "甲" is. -/
theorem missed_predicate_matches_spec :
    (∀ ans, isMissed ans = specMissed ans)
    ∧ isMissed (Cell.val "-") = false
    ∧ isMissed (Cell.val " - ") = false
    ∧ isMissed (Cell.val "") = false
    ∧ isMissed Cell.na = false
    ∧ isMissed (Cell.val "甲") = true
    ∧ ∀ a c k q as cs ks qs,
        extractErrors (a :: as) (c :: cs) (k :: ks) (q :: qs)
          = (if specMissed a then [mkErrorRecord q c k] else [])
            ++ extractErrors as cs ks qs := by
  refine ⟨isMissed_eq_specMissed, by decide, by decide, by decide, by decide, by decide,
    fun a c k q as cs ks qs => ?_⟩
  rw [extractErrors_cons, ← isMissed_eq_specMissed]
  by_cases hm : isMissed a = true
  · simp [hm]
  · simp only [Bool.not_eq_true] at hm
    simp [hm]

/-! Helper lemmas about the roster construction. -/

theorem uniqueFirst_aux_nodup :
    ∀ (l acc : List Cell), acc.Nodup →
      (l.foldl (fun acc x => if x ∈ acc then acc else acc ++ [x]) acc).Nodup := by
  intro l
  induction l with
  | nil => intro acc h; simpa using h
  | cons x xs ih =>
    intro acc h
    rw [List.foldl_cons]
    by_cases hx : x ∈ acc
    · simpa [hx] using ih acc h
    · have hcat : (acc ++ [x]).Nodup := by simp [List.nodup_append, h, hx]
      simpa [hx] using ih _ hcat

theorem uniqueFirst_aux_mem :
    ∀ (l acc : List Cell) (x : Cell),
      x ∈ l.foldl (fun acc y => if y ∈ acc then acc else acc ++ [y]) acc →
        x ∈ acc ∨ x ∈ l := by
  intro l
  induction l with
  | nil => intro acc x h; exact Or.inl (by simpa using h)
  | cons y ys ih =>
    intro acc x h
    rw [List.foldl_cons] at h
    by_cases hy : y ∈ acc
    · rcases ih _ x (by simpa [hy] using h) with h1 | h2
      · exact Or.inl h1
      · exact Or.inr (List.mem_cons_of_mem _ h2)
    · rcases ih _ x (by simpa [hy] using h) with h1 | h2
      · rcases List.mem_append.mp h1 with ha | hb
        · exact Or.inl ha
        · rw [List.mem_singleton] at hb
          subst hb
          exact Or.inr (List.mem_cons_self _ _)
      · exact Or.inr (List.mem_cons_of_mem _ h2)

/-- C6 (amended): the roster derived from the canonical sheet contains no
duplicate entries and no missing (NaN) entries; blank-but-present name
strings are not dropped (see the counterexample). -/
theorem roster_nodup_no_missing (g : Grid) :
    (studentList g).Nodup ∧ Cell.na ∉ studentList g := by
  constructor
  · exact uniqueFirst_aux_nodup _ [] List.nodup_nil
  · intro hmem
    simp only [studentList, uniqueFirst] at hmem
    rcases uniqueFirst_aux_mem _ [] Cell.na hmem with h | h
    · simp at h
    · rw [List.mem_filter] at h
      simp [Cell.notna] at h

theorem roster_nodup_no_missing_witness :
    (studentList demoGrid).Nodup ∧ Cell.na ∉ studentList demoGrid :=
  roster_nodup_no_missing demoGrid

/-- C6 (counterexample): `dropna` removes only NaN entries, so a
whitespace-only name survives into the roster even though its trimmed form
is empty — the roster does contain a blank name. -/
theorem blank_name_kept_in_roster :
    studentList blankNameGrid = [Cell.val " "] ∧ pyStrip " " = "" := by decide

/-- C2: whenever any required subject sheet is missing, processing fails
closed with a structural error carrying exactly the list of missing subject
names, before any roster or extraction work. -/
theorem missing_sheets_fail_closed (wb : Workbook) (h : missingSheetsOf wb ≠ []) :
    process_excel_data wb = Except.error (ExcelError.missingSheets (missingSheetsOf wb)) := by
  simp [process_excel_data, h]

theorem missing_sheets_fail_closed_witness :
    process_excel_data missingWb = Except.error (ExcelError.missingSheets ["自然"]) :=
  missing_sheets_fail_closed missingWb (by decide)

/-! Helper lemmas about the per-student subject loop and association-list
lookups. -/

theorem collectErrors_cons (wb : Workbook) (student : Cell) (s : String) (rest : List String) :
    collectErrors wb student (s :: rest)
      = match stepResult wb student s with
        | some errs => (s, errs) :: collectErrors wb student rest
        | none => collectErrors wb student rest := by
  rw [collectErrors]
  cases h : subjectStep (wb.grid s) student with
  | error e => simp [stepResult, h]
  | ok o => cases o <;> simp [stepResult, h]

theorem collectErrors_lookup_none (wb : Workbook) (student : Cell) :
    ∀ (subjects : List String) (subject : String), subject ∉ subjects →
      (collectErrors wb student subjects).lookup subject = none := by
  intro subjects
  induction subjects with
  | nil => intro subject _; rfl
  | cons s rest ih =>
    intro subject h
    have hne : subject ≠ s := fun he => h (he ▸ List.mem_cons_self _ _)
    have hnr : subject ∉ rest := fun hr => h (List.mem_cons_of_mem _ hr)
    have hbeq : (subject == s) = false := beq_eq_false_iff_ne.mpr hne
    rw [collectErrors_cons]
    cases hstep : stepResult wb student s with
    | none => exact ih subject hnr
    | some errs => simp [List.lookup, hbeq, ih subject hnr]

theorem collectErrors_lookup (wb : Workbook) (student : Cell) :
    ∀ (subjects : List String), subjects.Nodup →
      ∀ subject, subject ∈ subjects →
        (collectErrors wb student subjects).lookup subject = stepResult wb student subject := by
  intro subjects
  induction subjects with
  | nil => intro _ subject h; simp at h
  | cons s rest ih =>
    intro hnd subject hmem
    obtain ⟨hs, hnd'⟩ := List.nodup_cons.mp hnd
    rw [collectErrors_cons]
    by_cases heq : subject = s
    · subst heq
      cases hstep : stepResult wb student subject with
      | none => exact collectErrors_lookup_none wb student rest subject hs
      | some errs => simp [List.lookup]
    · have hr : subject ∈ rest := (List.mem_cons.mp hmem).resolve_left heq
      have hbeq : (subject == s) = false := beq_eq_false_iff_ne.mpr heq
      cases hstep : stepResult wb student s with
      | none => exact ih hnd' subject hr
      | some errs => simp [List.lookup, hbeq, ih hnd' subject hr]

theorem lookup_map_self {α β : Type} [BEq α] [LawfulBEq α] (f : α → β) :
    ∀ (l : List α) (a : α), a ∈ l → (l.map (fun x => (x, f x))).lookup a = some (f a) := by
  intro l
  induction l with
  | nil => intro a h; simp at h
  | cons x xs ih =>
    intro a h
    by_cases heq : a = x
    · subst heq; simp [List.lookup]
    · have hx : a ∈ xs := (List.mem_cons.mp h).resolve_left heq
      have hbeq : (a == x) = false := beq_eq_false_iff_ne.mpr heq
      simp [List.lookup, hbeq, ih a hx]

theorem find?_append_first {α : Type} (p : α → Bool) :
    ∀ (pre post : List α) (r : α), (∀ x ∈ pre, p x = false) → p r = true →
      (pre ++ r :: post).find? p = some r := by
  intro pre
  induction pre with
  | nil => intro post r _ hr; simp [List.find?_cons, hr]
  | cons x pre ih =>
    intro post r hpre hr
    have hx : p x = false := hpre x (List.mem_cons_self _ _)
    rw [List.cons_append]
    simp only [List.find?_cons, hx]
    exact ih post r (fun y hy => hpre y (List.mem_cons_of_mem _ hy)) hr

/-- C3: a per-(student, subject) exception leaves that subject absent from
the student's mapping while every other pair is settled by its own step
alone, and every roster student keeps an entry in the class index, whose
key list is exactly the roster. -/
theorem pair_failure_isolated :
    (∀ (wb : Workbook) (m : ClassIndex), process_excel_data wb = Except.ok m →
        m.map Prod.fst = studentList (wb.grid "國文")
        ∧ ∀ student, student ∈ studentList (wb.grid "國文") →
            m.lookup student = some (studentErrors wb student))
    ∧ (∀ (wb : Workbook) (student : Cell) (subject : String), subject ∈ requiredSheets →
        subjectStep (wb.grid subject) student = Except.error () →
          (studentErrors wb student).lookup subject = none)
    ∧ (∀ (wb : Workbook) (student : Cell) (subject : String) (errs : List ErrorRecord),
        subject ∈ requiredSheets →
        subjectStep (wb.grid subject) student = Except.ok (some errs) →
          (studentErrors wb student).lookup subject = some errs) := by
  refine ⟨?_, ?_, ?_⟩
  · intro wb m h
    by_cases h1 : missingSheetsOf wb = []
    · by_cases h2 : gridCols (wb.grid "國文") < 2
      · simp [process_excel_data, h1, h2] at h
      · simp only [process_excel_data, h1, ne_eq, not_true_eq_false, if_false, h2,
          if_neg h2, Except.ok.injEq] at h
        subst h
        constructor
        · rw [List.map_map,
            show (Prod.fst ∘ fun s => (s, studentErrors wb s)) = id from rfl, List.map_id]
        · intro student hs
          exact lookup_map_self _ _ student hs
    · simp [process_excel_data, h1] at h
  · intro wb student subject hmem hstep
    unfold studentErrors
    rw [collectErrors_lookup wb student requiredSheets (by decide) subject hmem]
    simp [stepResult, hstep]
  · intro wb student subject errs hmem hstep
    unfold studentErrors
    rw [collectErrors_lookup wb student requiredSheets (by decide) subject hmem]
    simp [stepResult, hstep]

theorem pair_failure_isolated_witness :
    (studentErrors errWb (Cell.val "Alice")).lookup "社會" = none
    ∧ errIndex.lookup (Cell.val "Alice") = some (studentErrors errWb (Cell.val "Alice")) := by
  constructor
  · exact pair_failure_isolated.2.1 errWb (Cell.val "Alice") "社會" (by decide) (by decide)
  · exact (pair_failure_isolated.1 errWb errIndex (by decide)).2 (Cell.val "Alice") (by decide)

/-- C4: a subject whose join finds no row for the student is absent from
the student's mapping, while a subject whose matched row yields zero
qualifying answers is present and maps to the empty list. -/
theorem absent_vs_empty_subject (wb : Workbook) (student : Cell) (subject : String)
    (hmem : subject ∈ requiredSheets) :
    (subjectStep (wb.grid subject) student = Except.ok none →
      (studentErrors wb student).lookup subject = none)
    ∧ (subjectStep (wb.grid subject) student = Except.ok (some []) →
      (studentErrors wb student).lookup subject = some []) := by
  have hchar := collectErrors_lookup wb student requiredSheets (by decide) subject hmem
  constructor
  · intro hstep
    unfold studentErrors
    rw [hchar]
    simp [stepResult, hstep]
  · intro hstep
    unfold studentErrors
    rw [hchar]
    simp [stepResult, hstep]

theorem absent_vs_empty_subject_witness :
    (studentErrors absentWb (Cell.val "Alice")).lookup "自然" = none
    ∧ (studentErrors demoWb (Cell.val "Bob")).lookup "數學" = some [] := by
  constructor
  · exact (absent_vs_empty_subject absentWb (Cell.val "Alice") "自然" (by decide)).1 (by decide)
  · exact (absent_vs_empty_subject demoWb (Cell.val "Bob") "數學" (by decide)).2 (by decide)

/-- C8 (amended): the per-(student, subject) block raises exactly when the
sheet has fewer than 3 rows or fewer than 2 columns; the exception is
confined to that pair — the subject is omitted for the student and every
other subject is still settled by its own step. -/
theorem subject_exception_shape :
    (∀ (g : Grid) (s : Cell),
        subjectStep g s = Except.error () ↔ g.length < 3 ∨ gridCols g < 2)
    ∧ (∀ (wb : Workbook) (student : Cell) (subject : String), subject ∈ requiredSheets →
        subjectStep (wb.grid subject) student = Except.error () →
          (studentErrors wb student).lookup subject = none
          ∧ ∀ subject', subject' ∈ requiredSheets →
              (studentErrors wb student).lookup subject' = stepResult wb student subject') := by
  constructor
  · intro g s
    constructor
    · intro h
      by_cases hc : g.length < 3 ∨ gridCols g < 2
      · exact hc
      · simp only [subjectStep, if_neg hc] at h
        split at h <;> cases h
    · intro h
      simp [subjectStep, h]
  · intro wb student subject hmem hstep
    constructor
    · unfold studentErrors
      rw [collectErrors_lookup wb student requiredSheets (by decide) subject hmem]
      simp [stepResult, hstep]
    · intro subject' hmem'
      exact collectErrors_lookup wb student requiredSheets (by decide) subject' hmem'

theorem subject_exception_shape_witness :
    subjectStep [[Cell.val "x"]] (Cell.val "A") = Except.error ()
    ∧ (studentErrors errWb (Cell.val "Bob")).lookup "社會" = none := by
  constructor
  · exact (subject_exception_shape.1 [[Cell.val "x"]] (Cell.val "A")).mpr (by decide)
  · exact (subject_exception_shape.2 errWb (Cell.val "Bob") "社會" (by decide) (by decide)).1

/-- C8 (counterexample): a sheet of five rows and three columns is below
the spec's minimum well-formed shape, yet the code signals no error of any
kind for it — the per-pair step returns the no-row outcome, not an
error. -/
theorem small_grid_no_structural_error :
    fiveRowGrid.length = 5 ∧ gridCols fiveRowGrid = 3
    ∧ subjectStep fiveRowGrid (Cell.val "Alice") = Except.ok none := by decide

/-- C9: when several body rows carry the same name, the lookup resolves to
the first matching row: the extracted records are computed from that row
alone, whatever rows follow, and the step completes without error. -/
theorem duplicate_name_first_row (df : Grid) (student : Cell)
    (pre post : List (List Cell)) (r : List Cell)
    (hshape : ¬ (df.length < 3 ∨ gridCols df < 2))
    (hsplit : df.drop 5 = pre ++ r :: post)
    (hpre : ∀ r' ∈ pre, Cell.pdEq (cellAt r' 1) student = false)
    (hr : Cell.pdEq (cellAt r 1) student = true) :
    subjectStep df student
      = Except.ok (some (extractErrors
          (sliceFrom (gridCols df) 2 r)
          (sliceFrom (gridCols df) 2 (df.getD 1 []))
          (sliceFrom (gridCols df) 2 (df.getD 2 []))
          (sliceFrom (gridCols df) 2 (df.getD 0 [])))) := by
  simp only [subjectStep, if_neg hshape, hsplit]
  rw [find?_append_first _ pre post r hpre hr]

theorem duplicate_name_first_row_witness :
    subjectStep dupGrid (Cell.val "Alice")
      = Except.ok (some [{ qn := Cell.val "1", cat := "代數", kp := Cell.val "畢氏定理" }]) := by
  have h := duplicate_name_first_row dupGrid (Cell.val "Alice")
    [] [[Cell.na, Cell.val "Alice", Cell.val "乙"]]
    [Cell.na, Cell.val "Alice", Cell.val "甲"]
    (by decide) (by decide) (by simp) (by decide)
  exact h

/-- C5 (amended): every emitted record's category label is computed by
`catLabel`: the trimmed string form of the category cell whenever the cell
is present — even when that trimmed form is empty — and the sentinel 其他
only when the cell is missing (NaN). -/
theorem category_label_trim_or_sentinel :
    (∀ (as cs ks qs : List Cell) (r : ErrorRecord), r ∈ extractErrors as cs ks qs →
        ∃ c, c ∈ cs ∧ r.cat = catLabel c)
    ∧ catLabel Cell.na = "其他"
    ∧ ∀ s, catLabel (Cell.val s) = pyStrip s := by
  refine ⟨?_, rfl, fun s => rfl⟩
  intro as
  induction as with
  | nil => intro cs ks qs r h; rw [extractErrors_nil_left] at h; simp at h
  | cons a as ih =>
    intro cs ks qs r h
    cases cs with
    | nil => simp [extractErrors] at h
    | cons c cs =>
      cases ks with
      | nil => simp [extractErrors] at h
      | cons k ks =>
        cases qs with
        | nil => simp [extractErrors] at h
        | cons q qs =>
          rw [extractErrors_cons] at h
          by_cases hm : isMissed a = true
          · rw [if_pos hm] at h
            rcases List.mem_cons.mp h with he | ht
            · exact ⟨c, List.mem_cons_self _ _, by rw [he]; rfl⟩
            · rcases ih cs ks qs r ht with ⟨c', hc', hcat⟩
              exact ⟨c', List.mem_cons_of_mem _ hc', hcat⟩
          · rw [if_neg hm] at h
            rcases ih cs ks qs r h with ⟨c', hc', hcat⟩
            exact ⟨c', List.mem_cons_of_mem _ hc', hcat⟩

theorem category_label_trim_or_sentinel_witness :
    ({ qn := Cell.na, cat := "文言文", kp := Cell.na } : ErrorRecord).cat
      = catLabel (Cell.val " 文言文 ") := by
  obtain ⟨c, hc, hcat⟩ := category_label_trim_or_sentinel.1
    [Cell.val "甲"] [Cell.val " 文言文 "] [Cell.na] [Cell.na]
    { qn := Cell.na, cat := "文言文", kp := Cell.na } (by decide)
  rw [List.mem_singleton] at hc
  subst hc
  exact hcat

/-- C5 (counterexample): a present but blank category cell is not replaced
by the uncategorized sentinel — the emitted record carries the empty
label. -/
theorem blank_category_not_defaulted :
    extractErrors [Cell.val "甲"] [Cell.val " "] [Cell.na] [Cell.na]
      = [{ qn := Cell.na, cat := "", kp := Cell.na }]
    ∧ ("" : String) ≠ "其他" := by decide

/-- C10: the knowledge-point value of every emitted record is one of the
raw header cells, copied verbatim as a cell value — a missing cell stays
the missing value itself, while the category in the same record is the
trimmed, defaulted string. -/
theorem knowledge_point_verbatim :
    (∀ (as cs ks qs : List Cell) (r : ErrorRecord), r ∈ extractErrors as cs ks qs →
        r.kp ∈ ks)
    ∧ extractErrors [Cell.val "甲"] [Cell.val "代數"] [Cell.na] [Cell.val "7"]
        = [{ qn := Cell.val "7", cat := "代數", kp := Cell.na }] := by
  constructor
  · intro as
    induction as with
    | nil => intro cs ks qs r h; rw [extractErrors_nil_left] at h; simp at h
    | cons a as ih =>
      intro cs ks qs r h
      cases cs with
      | nil => simp [extractErrors] at h
      | cons c cs =>
        cases ks with
        | nil => simp [extractErrors] at h
        | cons k ks =>
          cases qs with
          | nil => simp [extractErrors] at h
          | cons q qs =>
            rw [extractErrors_cons] at h
            by_cases hm : isMissed a = true
            · rw [if_pos hm] at h
              rcases List.mem_cons.mp h with he | ht
              · rw [he]; exact List.mem_cons_self _ _
              · exact List.mem_cons_of_mem _ (ih cs ks qs r ht)
            · rw [if_neg hm] at h
              exact List.mem_cons_of_mem _ (ih cs ks qs r h)
  · decide

theorem knowledge_point_verbatim_witness :
    ({ qn := Cell.val "7", cat := "代數", kp := Cell.na } : ErrorRecord).kp ∈ [Cell.na] :=
  knowledge_point_verbatim.1 [Cell.val "甲"] [Cell.val "代數"] [Cell.na] [Cell.val "7"]
    { qn := Cell.val "7", cat := "代數", kp := Cell.na } (by decide)

end AutoScore
